import Mathlib

/-!
Verification development for the RSconvert repository (a Next.js app that
validates an image submission, normalises it to a data URI, invokes an
external background-removal AI flow, and maps failures to user-facing
messages). The TypeScript sources are shallowly embedded below: JS strings
become `String`, JS `null`/`undefined` fields become `Option`, fallible
steps become `Except`, and the single external `ai.generate` /
`removeBackgroundFromImageUrl` calls become explicit outcome parameters.
-/

namespace RSconvert

/-- Embedding of JS `s.toLowerCase()` (ASCII, which is all the code compares). -/
def lowerStr (s : String) : String := String.mk (s.data.map Char.toLower)

/-- Contiguous-occurrence scan over character lists, the semantics of JS
`String.prototype.includes`. -/
def listInfixB (needle : List Char) : List Char → Bool
  | [] => needle.isEmpty
  | c :: t => needle.isPrefixOf (c :: t) || listInfixB needle t

/-- Embedding of JS `hay.includes(needle)`. -/
def strContainsB (hay needle : String) : Bool := listInfixB needle.data hay.data

/-- Embedding of JS `hay.toLowerCase().includes(needle.toLowerCase())`. -/
def containsCI (hay needle : String) : Bool := strContainsB (lowerStr hay) (lowerStr needle)

/-- Embedding of JS `s.startsWith(p)`. -/
def startsWithB (s p : String) : Bool := p.data.isPrefixOf s.data

/-- Mirrors `ActionResultState` of `src/lib/types.ts`. A field that is `none`
models JS `null` or an absent/undefined field; the actions always write both
`processedUrl` and `error` explicitly, and no caller distinguishes `null`
from absent. -/
structure ActionResultState where
  id : Option String
  originalUrl : Option String
  processedUrl : Option String
  error : Option String
  deriving DecidableEq, Repr

/-- Result of a JS call that either returns a string or throws; models
`String(x)` and `JSON.stringify(x)` applied to an arbitrary value. -/
inductive JsCall where
  | throws
  | ret (s : String)
  deriving DecidableEq, Repr

/-- Outcome of reading a JS property on an arbitrary value: the getter may
throw, the property may be absent (undefined), or it yields a value. -/
inductive JsAttempt (α : Type) where
  | throws
  | undef
  | val (a : α)
  deriving DecidableEq, Repr

/-- Value of a message-like property (`.message` / `.details`): either a JS
string, or some other value carrying its truthiness and its `String(...)`
coercion. -/
inductive JsProp where
  | pstr (s : String)
  | pother (truthy : Bool) (strRep : String)
  deriving DecidableEq, Repr

/-- Arbitrary JS thrown value as the error classifiers observe it: an `Error`
instance (whose `message` and `cause` are plain data properties), a primitive
string, or any `other` value whose observable behaviours — truthiness,
`message`/`details`/`cause` property reads (each of which may throw),
`String(...)` coercion and `JSON.stringify` (each of which may throw) — are
carried explicitly. This models the spec's "arbitrary object, including
objects whose message/toString/JSON.stringify themselves throw". -/
inductive JsValue where
  | err (message : String) (cause : Option JsValue)
  | str (s : String)
  | other (truthy : Bool) (message : JsAttempt JsProp) (details : JsAttempt JsProp)
      (cause : JsAttempt JsValue) (toStr : JsCall) (json : JsCall)

/-- JS truthiness of a value (objects are truthy, strings iff non-empty). -/
def jsTruthy : JsValue → Bool
  | .err _ _ => true
  | .str s => s != ""
  | .other t _ _ _ _ _ => t

/-- Truthiness of a message-like property value. -/
def jsPropTruthy : JsProp → Bool
  | .pstr s => s != ""
  | .pother t _ => t

/-- JS `String(p)` of a message-like property value. -/
def jsPropStr : JsProp → String
  | .pstr s => s
  | .pother _ r => r

/-- Text appended for a nested cause by `safeStringifyError`
(`src/ai/flows/remove-background.ts` lines 35–50 and 60–75): an `Error` cause
contributes its message, a string cause itself, anything else its
`JSON.stringify` with a fixed fallback when stringification throws. -/
def causeTextOf : JsValue → String
  | .err m _ => m
  | .str s => s
  | .other _ _ _ _ _ json =>
      match json with
      | .ret j => j
      | .throws => "Could not stringify nested cause."

/-- Tail of `safeStringifyError` once no string `message`/`details` was found:
`String(error)`, then `JSON.stringify(error)` when that printed as a generic
object tag; a throw inside the outer try yields its fixed fallback. -/
def safeStringifyStrTail (toStr json : JsCall) : String :=
  match toStr with
  | .throws => "An unknown error occurred, and it could not be stringified."
  | .ret s =>
      if s != "[object Object]" then s
      else
        match json with
        | .ret j => j
        | .throws => "Could not stringify error object."

/-- Details-checking tail of `safeStringifyError`: the `details` read is guarded
by the value's truthiness; a throwing getter is caught by the outer try. -/
def safeStringifyObjTail (truthy : Bool) (details : JsAttempt JsProp) (toStr json : JsCall) : String :=
  if truthy then
    match details with
    | .throws => "An unknown error occurred, and it could not be stringified."
    | .val (.pstr d) => d
    | .undef | .val (.pother _ _) => safeStringifyStrTail toStr json
  else safeStringifyStrTail toStr json

/-- Embedding of `safeStringifyError` (`src/ai/flows/remove-background.ts`
lines 32–96, first section). -/
def safeStringifyError : JsValue → String
  | .err m c =>
      match c with
      | some cv => if jsTruthy cv then m ++ " | " ++ ("Nested cause: " ++ causeTextOf cv) else m
      | none => m
  | .str s => s
  | .other truthy message details cause toStr json =>
      if truthy then
        match message with
        | .throws => "An unknown error occurred, and it could not be stringified."
        | .val (.pstr m) =>
            (match cause with
             | .throws => "An unknown error occurred, and it could not be stringified."
             | .undef => m
             | .val cv => if jsTruthy cv then m ++ " | " ++ ("Nested cause: " ++ causeTextOf cv) else m)
        | .undef | .val (.pother _ _) => safeStringifyObjTail truthy details toStr json
      else safeStringifyObjTail truthy details toStr json

/-- The `toString()` tail of `extractErrorMessage`: the call sits inside the
branch condition, so a throw falls to the catch and an `"[object Object]"`
result falls through to the unknown-structure arm. -/
def extractToStrTail : JsCall → String
  | .throws => "Caught a non-standard error that could not be processed."
  | .ret s => if s != "[object Object]" then s else "An unknown error structure was caught."

/-- The `details` tail of `extractErrorMessage`. -/
def extractDetailsTail (details : JsAttempt JsProp) (toStr : JsCall) : String :=
  match details with
  | .throws => "Caught a non-standard error that could not be processed."
  | .val p => if jsPropTruthy p then jsPropStr p else extractToStrTail toStr
  | .undef => extractToStrTail toStr

/-- Embedding of `extractErrorMessage` (`src/lib/actions.ts` lines 145–169,
second section): truthiness-based `message`/`details` probing with a
try/catch net around the object case. -/
def extractErrorMessage : JsValue → String
  | .err m _ => m
  | .str s => s
  | .other truthy message details _cause toStr _json =>
      if truthy then
        match message with
        | .throws => "Caught a non-standard error that could not be processed."
        | .val p => if jsPropTruthy p then jsPropStr p else extractDetailsTail details toStr
        | .undef => extractDetailsTail details toStr
      else "An unknown error structure was caught."

/-- Case-SENSITIVE credential check of `getClientErrorMessage`
(`src/unnamed/part_004` line 15): plain `includes` on the raw message. -/
def clientCredCheck (m : String) : Bool :=
  strContainsB m "API key" || strContainsB m "PERMISSION_DENIED"
    || strContainsB m "Failed precondition" || strContainsB m "IAM"

def clientApiKeyText : String :=
  "Error: API key issue (invalid, missing, or lacking permissions). Please verify your GEMINI_API_KEY and its Google Cloud project configuration (e.g., billing, API enabled)."

def clientSafetyText : String :=
  "Error: Image processing was blocked by safety filters. The image might contain content that violates safety policies."

def clientLocationText : String :=
  "Error: Your location is not supported for this AI service. The API may have regional restrictions."

def clientNoMediaText : String :=
  "Error: The AI model did not return the expected image data. The input image might be unsuitable or the service is busy. Try a different image or try again later."

/-- Truncated generic passthrough for `Error` messages
(`error.message.substring(0, 150)` plus an ellipsis past 150 characters). -/
def clientGenericText (m : String) : String :=
  "Processing Error: " ++ String.mk (m.data.take 150) ++ (if m.data.length > 150 then "..." else "")

/-- Embedding of `getClientErrorMessage` (`src/unnamed/part_004` lines 11–35).
The credential checks there run on the raw message (case-sensitive `includes`);
the safety, location and media checks run on the lowercased message; thrown
strings and non-Error values never reach the category branches. -/
def getClientErrorMessage (e : JsValue) : String :=
  match e with
  | .err m _ =>
      if clientCredCheck m then clientApiKeyText
      else if strContainsB (lowerStr m) "candidate was blocked due to safety" then clientSafetyText
      else if strContainsB (lowerStr m) "user location is not supported" then clientLocationText
      else if strContainsB (lowerStr m) "model text not found" || strContainsB (lowerStr m) "no media" then
        clientNoMediaText
      else clientGenericText m
  | .str s =>
      if s.data.length > 200 then "Processing Error: " ++ String.mk (s.data.take 200) ++ "..."
      else "Processing Error: " ++ s
  | .other _ _ _ _ _ _ =>
      "An unexpected error occurred during image processing. Please check server logs or try again later."

/-- Text non-emptiness of a message-like property read. -/
def propTextNonempty : JsAttempt JsProp → Bool
  | .val (.pstr s) => s != ""
  | .val (.pother _ r) => r != ""
  | _ => true

/-- Text non-emptiness of a `String(...)`/`JSON.stringify` call result. -/
def callTextNonempty : JsCall → Bool
  | .ret s => s != ""
  | .throws => true

/-- Every piece of text the thrown value itself supplies (its message, details,
string conversion and JSON text) is non-empty. Under this condition both
classifiers below return a non-empty string; without it they can pass an
empty extracted text through (see the counterexample). -/
def noEmptyText : JsValue → Bool
  | .err m _ => m != ""
  | .str s => s != ""
  | .other _ message details _ toStr json =>
      propTextNonempty message && propTextNonempty details &&
      callTextNonempty toStr && callTextNonempty json

/-- Media part of the `ai.generate` response (`media.url`). -/
structure MediaPart where
  url : String
  deriving DecidableEq, Repr

/-- Outcome of the single `ai.generate` call inside the flow: either it
resolves (with optional media and optional text) or it rejects with a thrown
value. -/
inductive GenOutcome where
  | genOk (media : Option MediaPart) (text : Option String)
  | genThrown (e : JsValue)

/-- What `removeBackgroundFromImageUrlFlow` can throw: normally
`new Error(message)` carrying the classified message; `secondaryThrow` marks
the corner in which a getter on the caught value itself throws while the
safety-branch diagnostic re-reads `cause`/`message` inside the catch block. -/
inductive FlowErr where
  | thrownMsg (s : String)
  | secondaryThrow
  deriving DecidableEq, Repr

/-- One run of the flow, with the PNG-format console warning of
`src/ai/flows/remove-background.ts` lines 141–146 tracked as a boolean. -/
structure FlowRun where
  result : Except FlowErr String
  warnedNonPng : Bool
  deriving Repr

/-- Keyword list of `src/ai/flows/remove-background.ts` line 155. -/
def apiKeyErrorKeywords : List String :=
  ["API key", "GEMINI_API_KEY", "GOOGLE_API_KEY", "PermissionDenied", "IAM",
   "credentials", "authentication", "authorization", "forbidden"]

/-- Embedding of
`apiKeyErrorKeywords.some(k => message.toLowerCase().includes(k.toLowerCase()))`. -/
def isApiKeyError (message : String) : Bool :=
  apiKeyErrorKeywords.any (fun kw => containsCI message kw)

/-- Truthy-string view of a message-like property as used in a `||` chain
inside a template literal: `none` when falsy, otherwise its string coercion. -/
def jsPropTruthyStr (p : JsProp) : Option String :=
  if jsPropTruthy p then some (jsPropStr p) else none

/-- Optional-chain read `v?.message` restricted to a truthy string result;
`Except.error ()` when the property getter throws. -/
def jsMessageRead : JsValue → Except Unit (Option String)
  | .err m _ => .ok (if m != "" then some m else none)
  | .str _ => .ok none
  | .other _ message _ _ _ _ =>
      match message with
      | .throws => .error ()
      | .undef => .ok none
      | .val p => .ok (jsPropTruthyStr p)

/-- Safety-branch diagnostic
`(flowError as any)?.cause?.message || (flowError as any)?.message || 'No specific details.'`
(`src/ai/flows/remove-background.ts` line 161); `Except.error ()` when a
getter throws (which would propagate out of the catch block). -/
def safetyDiagnostic (e : JsValue) : Except Unit String :=
  let step1 : Except Unit (Option String) :=
    match e with
    | .err _ c =>
        (match c with
         | some cv => jsMessageRead cv
         | none => .ok none)
    | .str _ => .ok none
    | .other _ _ _ cause _ _ =>
        (match cause with
         | .throws => .error ()
         | .undef => .ok none
         | .val cv => jsMessageRead cv)
  match step1 with
  | .error u => .error u
  | .ok (some s) => .ok s
  | .ok none =>
      match jsMessageRead e with
      | .error u => .error u
      | .ok (some s) => .ok s
      | .ok none => .ok "No specific details."

/-- Credential-category message of the flow classifier
(`src/ai/flows/remove-background.ts` line 159). -/
def apiKeyErrorText (m : String) : String :=
  "API Key or Permissions Error: " ++ m ++ ". Please ensure your GEMINI_API_KEY is correctly set in your .env file, the server is restarted, and the key has the necessary permissions for the Gemini API."

/-- Safety-category message of the flow classifier (line 161), around the
re-read diagnostic text. -/
def safetyBlockedText (d : String) : String :=
  "Image processing was blocked by safety filters. The image might contain content that violates safety policies. Diagnostic text from AI: \"" ++ d ++ "\""

/-- Generic passthrough of the flow classifier (line 164). -/
def aiFlowErrorText (m : String) : String := "AI Flow Error: " ++ m

/-- Catch block of `removeBackgroundFromImageUrlFlow`
(`src/ai/flows/remove-background.ts` lines 151–168): stringify the caught
value, re-classify by keyword, and throw `new Error(message)`. -/
def flowCatch (e : JsValue) : FlowErr :=
  let message := safeStringifyError e
  if isApiKeyError message then
    .thrownMsg (apiKeyErrorText message)
  else if containsCI message "candidate was blocked due to safety" then
    match safetyDiagnostic e with
    | .ok d => .thrownMsg (safetyBlockedText d)
    | .error _ => .secondaryThrow
  else .thrownMsg (aiFlowErrorText message)

/-- JS `text || 'No text response.'` over the optional text part. -/
def textOrDefault (text : Option String) : String :=
  match text with
  | some t => if t != "" then t else "No text response."
  | none => "No text response."

/-- Error text thrown when `!media || !media.url`
(`src/ai/flows/remove-background.ts` line 136). -/
def missingMediaMsg (text : Option String) : String :=
  "AI model did not return an image for background removal. Diagnostic text from AI: \"" ++ textOrDefault text ++ "\""

def pngDataUriPrefix : String := "data:image/png;base64,"

/-- Embedding of `removeBackgroundFromImageUrlFlow` (first section of
`src/ai/flows/remove-background.ts`), parameterised by the outcome of the
single `ai.generate` call. The internal missing-media `throw` is caught by
the flow's own catch block and re-classified, exactly as in the source. -/
def removeBackgroundFromImageUrlFlow (g : GenOutcome) : FlowRun :=
  match g with
  | .genOk media text =>
      match media with
      | none => { result := .error (flowCatch (.err (missingMediaMsg text) none)), warnedNonPng := false }
      | some m =>
          if m.url != "" then
            { result := .ok m.url, warnedNonPng := !startsWithB m.url pngDataUriPrefix }
          else
            { result := .error (flowCatch (.err (missingMediaMsg text) none)), warnedNonPng := false }
  | .genThrown e => { result := .error (flowCatch e), warnedNonPng := false }

/-- A `File` as the actions observe it: declared name, `size`, MIME `type`,
and the bytes `arrayBuffer()` yields (each a value below 256). -/
structure FileModel where
  name : String
  size : Nat
  type : String
  content : List Nat
  deriving DecidableEq, Repr

/-- Value obtained from `formData.get(...)`: a string, a `File`, or JS `null`. -/
inductive FormVal where
  | fstr (s : String)
  | ffile (f : FileModel)
  | fnull

/-- JS `typeof v === 'string' ? v : undefined`. -/
def formValStr : FormVal → Option String
  | .fstr s => some s
  | _ => none

/-- Embedding of `ImageUrlSchema.safeParse` on the raw form value. `urlValid`
stands for the `z.string().url()` well-formedness judgment of the zod library
(library code, outside this repository); a non-string form value fails zod's
type check before the url check runs, with zod's generated type message. -/
def imageUrlSafeParse (urlValid : String → Bool) : FormVal → Except (List String) String
  | .fstr s => if urlValid s then .ok s else .error ["Invalid URL format. Please enter a valid image URL."]
  | .ffile _ => .error ["Expected string, received object"]
  | .fnull => .error ["Expected string, received null"]

def MAX_FILE_SIZE : Nat := 5 * 1024 * 1024

def ACCEPTED_IMAGE_TYPES : List String := ["image/jpeg", "image/jpg", "image/png", "image/webp"]

/-- Issues produced by `ImageFileSchema.safeParse` on a `File`
(`src/lib/actions.ts` lines 60–70): zod runs every chained `.refine`
(refinement issues are non-fatal), so every failing rule contributes its own
reason, accumulated in chain order. -/
def imageFileFormErrors (f : FileModel) : List String :=
  (if f.size > 0 then [] else ["File is empty."]) ++
  (if f.size ≤ MAX_FILE_SIZE then [] else ["Max file size is 5MB."]) ++
  (if ACCEPTED_IMAGE_TYPES.contains f.type then [] else ["Only .jpg, .jpeg, .png and .webp formats are supported."])

/-- Base64 alphabet character for a 6-bit value, as
`buffer.toString('base64')` uses it. -/
def sextetChar (n : Nat) : Char :=
  if n < 26 then Char.ofNat (65 + n)
  else if n < 52 then Char.ofNat (97 + (n - 26))
  else if n < 62 then Char.ofNat (48 + (n - 52))
  else if n = 62 then '+'
  else '/'

/-- Inverse base64 table. -/
def sextetVal (c : Char) : Option Nat :=
  if 65 ≤ c.toNat ∧ c.toNat ≤ 90 then some (c.toNat - 65)
  else if 97 ≤ c.toNat ∧ c.toNat ≤ 122 then some (c.toNat - 97 + 26)
  else if 48 ≤ c.toNat ∧ c.toNat ≤ 57 then some (c.toNat - 48 + 52)
  else if c = '+' then some 62
  else if c = '/' then some 63
  else none

/-- Base64 encoding of a byte sequence: three bytes to four characters with
`=` padding, the output format of `buffer.toString('base64')`. -/
def base64Encode : List Nat → List Char
  | [] => []
  | [a] => [sextetChar (a / 4), sextetChar (a % 4 * 16), '=', '=']
  | [a, b] => [sextetChar (a / 4), sextetChar (a % 4 * 16 + b / 16), sextetChar (b % 16 * 4), '=']
  | a :: b :: c :: rest =>
      sextetChar (a / 4) :: sextetChar (a % 4 * 16 + b / 16) ::
      sextetChar (b % 16 * 4 + c / 64) :: sextetChar (c % 64) :: base64Encode rest

/-- Base64 decoding of a payload: groups of four characters, honouring `=`
padding on the final group. -/
def base64Decode : List Char → Option (List Nat)
  | [] => some []
  | c1 :: c2 :: c3 :: c4 :: rest =>
      (sextetVal c1).bind fun v1 =>
      (sextetVal c2).bind fun v2 =>
      if c3 = '=' then
        if c4 = '=' ∧ rest = [] then some [v1 * 4 + v2 / 16] else none
      else
        (sextetVal c3).bind fun v3 =>
        if c4 = '=' then
          if rest = [] then some [v1 * 4 + v2 / 16, v2 % 16 * 16 + v3 / 4] else none
        else
          (sextetVal c4).bind fun v4 =>
          (base64Decode rest).map
            (fun tl => (v1 * 4 + v2 / 16) :: (v2 % 16 * 16 + v3 / 4) :: (v3 % 4 * 64 + v4) :: tl)
  | _ => none

/-- Data URI built by the upload normaliser (`src/lib/actions.ts` line 97):
`data:<declared-mime>;base64,<payload>`. -/
def mkOriginalDataUri (f : FileModel) : String :=
  "data:" ++ f.type ++ ";base64," ++ String.mk (base64Encode f.content)

/-- Catch-block message of the first-section actions:
`error instanceof Error ? error.message : <fixed default>`. -/
def instanceofErrorMsg (e : JsValue) (dflt : String) : String :=
  match e with
  | .err m _ => m
  | _ => dflt

/-- First-section `processImageUrlAction` (`src/lib/actions.ts` lines 10–55),
parameterised by the fresh `crypto.randomUUID()` value `uid`, the zod URL
judgment `urlValid`, and the outcome `ext` of the awaited
`removeBackgroundFromImageUrl` call (`.ok uri` resolution, `.error e`
rejection with thrown value `e`). The boolean of the returned pair records
whether the external call was invoked. -/
def processImageUrlAction (_prevState : ActionResultState) (imageUrl : FormVal)
    (uid : String) (urlValid : String → Bool) (ext : Except JsValue String) :
    ActionResultState × Bool :=
  match imageUrlSafeParse urlValid imageUrl with
  | .error msgs =>
      ({ id := some uid, originalUrl := formValStr imageUrl,
         error := some (String.intercalate ", " msgs), processedUrl := none }, false)
  | .ok url =>
      match ext with
      | .ok uri =>
          if uri != "" then
            ({ id := some uid, originalUrl := some url, processedUrl := some uri, error := none }, true)
          else
            ({ id := some uid, originalUrl := some url,
               error := some "AI processing failed to return an image.", processedUrl := none }, true)
      | .error e =>
          ({ id := some uid, originalUrl := some url,
             error := some ("Failed to process image: " ++
               instanceofErrorMsg e "An unexpected error occurred during background removal."),
             processedUrl := none }, true)

/-- First-section `processImageUploadAction` (`src/lib/actions.ts` lines
73–135): validation, the `arrayBuffer()` read (whose failure `readFails`
models the catch at lines 98–106), normalisation to a data URI, then the
external call. The boolean of the pair records whether the external call was
invoked. -/
def processImageUploadAction (_prevState : ActionResultState) (imageFile : FormVal)
    (uid : String) (readFails : Bool) (ext : Except JsValue String) :
    ActionResultState × Bool :=
  match imageFile with
  | .ffile f =>
      match imageFileFormErrors f with
      | [] =>
          if readFails then
            ({ id := some uid, originalUrl := some f.name,
               error := some "Failed to read the uploaded file.", processedUrl := none }, false)
          else
            let originalDataUri := mkOriginalDataUri f
            match ext with
            | .ok uri =>
                if uri != "" then
                  ({ id := some uid, originalUrl := some originalDataUri,
                     processedUrl := some uri, error := none }, true)
                else
                  ({ id := some uid, originalUrl := some originalDataUri,
                     error := some "AI processing failed to return an image from the uploaded file.",
                     processedUrl := none }, true)
            | .error e =>
                ({ id := some uid, originalUrl := some originalDataUri,
                   error := some ("Failed to process uploaded image: " ++
                     instanceofErrorMsg e "An unexpected error occurred during background removal."),
                   processedUrl := none }, true)
      | msgs =>
          ({ id := some uid, originalUrl := some f.name,
             error := some (String.intercalate ", " msgs), processedUrl := none }, false)
  | _ =>
      ({ id := some uid, originalUrl := some "Invalid file",
         error := some (String.intercalate ", " ["Input not instance of File"]),
         processedUrl := none }, false)

/-- JS `prevState?.id || crypto.randomUUID()` of the second-section actions
(`src/lib/actions.ts` lines 176 and 239): reuse the previous id when present
and truthy, otherwise a fresh UUID. -/
def prevIdOr (prev : ActionResultState) (uid : String) : String :=
  match prev.id with
  | some s => if s != "" then s else uid
  | none => uid

/-- Second-section revision of `processImageUrlAction` (`src/lib/actions.ts`
lines 171–216): identical control flow to the first section except that the
correlation id reuses `prevState.id` when available ("Use previous ID if
available for retry, else new") and the catch block uses
`extractErrorMessage`. -/
def processImageUrlActionR2 (prevState : ActionResultState) (imageUrl : FormVal)
    (uid : String) (urlValid : String → Bool) (ext : Except JsValue String) :
    ActionResultState × Bool :=
  let uniqueId := prevIdOr prevState uid
  match imageUrlSafeParse urlValid imageUrl with
  | .error msgs =>
      ({ id := some uniqueId, originalUrl := formValStr imageUrl,
         error := some (String.intercalate ", " msgs), processedUrl := none }, false)
  | .ok url =>
      match ext with
      | .ok uri =>
          if uri != "" then
            ({ id := some uniqueId, originalUrl := some url, processedUrl := some uri, error := none }, true)
          else
            ({ id := some uniqueId, originalUrl := some url,
               error := some "AI processing failed to return an image.", processedUrl := none }, true)
      | .error e =>
          ({ id := some uniqueId, originalUrl := some url,
             error := some ("Failed to process image: " ++ extractErrorMessage e),
             processedUrl := none }, true)

/-- Second-section revision of `processImageUploadAction`
(`src/lib/actions.ts` lines 234–296), with the same reused correlation id and
`extractErrorMessage`-based catch block. -/
def processImageUploadActionR2 (prevState : ActionResultState) (imageFile : FormVal)
    (uid : String) (readFails : Bool) (ext : Except JsValue String) :
    ActionResultState × Bool :=
  let uniqueId := prevIdOr prevState uid
  match imageFile with
  | .ffile f =>
      match imageFileFormErrors f with
      | [] =>
          if readFails then
            ({ id := some uniqueId, originalUrl := some f.name,
               error := some "Failed to read the uploaded file.", processedUrl := none }, false)
          else
            let originalDataUri := mkOriginalDataUri f
            match ext with
            | .ok uri =>
                if uri != "" then
                  ({ id := some uniqueId, originalUrl := some originalDataUri,
                     processedUrl := some uri, error := none }, true)
                else
                  ({ id := some uniqueId, originalUrl := some originalDataUri,
                     error := some "AI processing failed to return an image from the uploaded file.",
                     processedUrl := none }, true)
            | .error e =>
                ({ id := some uniqueId, originalUrl := some originalDataUri,
                   error := some ("Failed to process uploaded image: " ++ extractErrorMessage e),
                   processedUrl := none }, true)
      | msgs =>
          ({ id := some uniqueId, originalUrl := some f.name,
             error := some (String.intercalate ", " msgs), processedUrl := none }, false)
  | _ =>
      ({ id := some uniqueId, originalUrl := some "Invalid file",
         error := some (String.intercalate ", " ["Input not instance of File"]),
         processedUrl := none }, false)

/-- The `src/unnamed/part_003` revision of `processImageUrlAction`: its
validation-reject path returns only `{ error }` — no id, no originalUrl and
no processedUrl — and `crypto.randomUUID()` runs only after validation
succeeds; the success, empty-result and catch paths match the first-section
revision. -/
def processImageUrlActionP3 (_prevState : ActionResultState) (imageUrl : FormVal)
    (uid : String) (urlValid : String → Bool) (ext : Except JsValue String) :
    ActionResultState × Bool :=
  match imageUrlSafeParse urlValid imageUrl with
  | .error msgs =>
      ({ id := none, originalUrl := none,
         error := some (String.intercalate ", " msgs), processedUrl := none }, false)
  | .ok url =>
      match ext with
      | .ok uri =>
          if uri != "" then
            ({ id := some uid, originalUrl := some url, processedUrl := some uri, error := none }, true)
          else
            ({ id := some uid, originalUrl := some url,
               error := some "AI processing failed to return an image.", processedUrl := none }, true)
      | .error e =>
          ({ id := some uid, originalUrl := some url,
             error := some ("Failed to process image: " ++
               instanceofErrorMsg e "An unexpected error occurred during background removal."),
             processedUrl := none }, true)

/-- Process environment as `src/ai/genkit.ts` reads it. -/
structure EnvModel where
  GEMINI_API_KEY : Option String
  GOOGLE_API_KEY : Option String
  GOOGLE_GENAI_API_KEY : Option String
  NODE_ENV : Option String

/-- JS `a || b` over possibly-undefined env strings (empty string is falsy). -/
def jsOrStr (a b : Option String) : Option String :=
  match a with
  | some s => if s != "" then some s else b
  | none => b

/-- JS falsiness of a possibly-undefined string. -/
def jsFalsyStr : Option String → Bool
  | some s => s == ""
  | none => true

/-- Plugin argument passed to `genkit`: `googleAI({ apiKey })` when a key was
resolved, plain `googleAI()` (its own env lookup) otherwise. -/
inductive GoogleAIPlugin where
  | withExplicitKey (k : String)
  | envLookup
  deriving DecidableEq, Repr

/-- The constructed genkit client. -/
structure AiClient where
  plugin : GoogleAIPlugin
  model : String
  deriving DecidableEq, Repr

/-- Observable outcome of evaluating the `src/ai/genkit.ts` module. -/
structure GenkitModuleInit where
  warned : Bool
  ai : AiClient
  deriving DecidableEq, Repr

/-- Module initialisation of `src/ai/genkit.ts` (first section): resolve the
credential with `||` over the three env variables, emit the console warning
exactly when no key resolved and `NODE_ENV === 'development'`, and construct
the client unconditionally — the module body is straight-line code with no
throw, so initialisation always completes. -/
def initGenkitModule (env : EnvModel) : GenkitModuleInit :=
  let apiKey := jsOrStr env.GEMINI_API_KEY (jsOrStr env.GOOGLE_API_KEY env.GOOGLE_GENAI_API_KEY)
  { warned := jsFalsyStr apiKey && (env.NODE_ENV == some "development"),
    ai := { plugin :=
              match apiKey with
              | some s => if s != "" then .withExplicitKey s else .envLookup
              | none => .envLookup,
            model := "googleai/gemini-2.0-flash" } }

theorem sextetVal_sextetChar : ∀ v < 64, sextetVal (sextetChar v) = some v := by decide

theorem sextetChar_ne_pad : ∀ v < 64, sextetChar v ≠ '=' := by decide

theorem base64_decode_encode : ∀ bs : List Nat, (∀ b ∈ bs, b < 256) →
    base64Decode (base64Encode bs) = some bs := by
  intro bs
  induction bs using base64Encode.induct with
  | case1 => intro _; rfl
  | case2 a =>
    intro h
    have ha : a < 256 := h a (by simp)
    simp only [base64Encode, base64Decode]
    rw [sextetVal_sextetChar _ (by omega), sextetVal_sextetChar _ (by omega)]
    simp only [Option.some_bind, and_self, if_true, reduceIte, Option.some.injEq,
      List.cons.injEq, and_true]
    omega
  | case3 a b =>
    intro h
    have ha : a < 256 := h a (by simp)
    have hb : b < 256 := h b (by simp)
    simp only [base64Encode, base64Decode]
    rw [sextetVal_sextetChar _ (by omega), sextetVal_sextetChar _ (by omega)]
    simp only [Option.some_bind]
    rw [if_neg (sextetChar_ne_pad _ (by omega))]
    rw [sextetVal_sextetChar _ (by omega)]
    simp only [Option.some_bind, reduceIte, Option.some.injEq, List.cons.injEq, and_true]
    omega
  | case4 a b c rest ih =>
    intro h
    have ha : a < 256 := h a (by simp)
    have hb : b < 256 := h b (by simp)
    have hc : c < 256 := h c (by simp)
    have hrest : ∀ x ∈ rest, x < 256 := fun x hx => h x (by simp [hx])
    simp only [base64Encode, base64Decode]
    rw [sextetVal_sextetChar _ (by omega), sextetVal_sextetChar _ (by omega)]
    simp only [Option.some_bind]
    rw [if_neg (sextetChar_ne_pad _ (by omega))]
    rw [sextetVal_sextetChar _ (by omega)]
    simp only [Option.some_bind]
    rw [if_neg (sextetChar_ne_pad _ (by omega))]
    rw [sextetVal_sextetChar _ (by omega)]
    simp only [Option.some_bind]
    rw [ih hrest]
    simp only [Option.map_some', Option.some.injEq, List.cons.injEq, and_true]
    omega

theorem str_ne_empty_iff (s : String) : s ≠ "" ↔ s.data ≠ [] := by
  constructor
  · intro h hd; exact h (by cases s; simp_all)
  · intro h he; rw [he] at h; exact h rfl

theorem append_ne_left (s t : String) (h : s ≠ "") : s ++ t ≠ "" := by
  rw [str_ne_empty_iff] at h ⊢
  have hd : (s ++ t).data = s.data ++ t.data := rfl
  rw [hd]
  simp [h]

theorem listInfixB_iff (n h : List Char) : listInfixB n h = true ↔ n <:+: h := by
  induction h with
  | nil => simp [listInfixB, List.isEmpty_iff, List.infix_nil]
  | cons c t ih => simp [listInfixB, List.isPrefixOf_iff_prefix, List.infix_cons_iff, ih]

theorem infix_ext_right {n m : List Char} (r : List Char) (h : n <:+: m) : n <:+: m ++ r := by
  obtain ⟨s, t, hst⟩ := h
  exact ⟨s, t ++ r, by rw [← hst]; simp⟩

theorem infix_ext_left {n m : List Char} (l : List Char) (h : n <:+: m) : n <:+: l ++ m := by
  obtain ⟨s, t, hst⟩ := h
  exact ⟨l ++ s, t, by rw [← hst]; simp⟩

theorem strContainsB_of_infix {hay needle : String} (h : needle.data <:+: hay.data) :
    strContainsB hay needle = true := by
  rw [strContainsB, listInfixB_iff]
  exact h

theorem safeStringifyStrTail_ne (toStr json : JsCall)
    (h3 : callTextNonempty toStr = true) (h4 : callTextNonempty json = true) :
    safeStringifyStrTail toStr json ≠ "" := by
  cases toStr with
  | throws => simp [safeStringifyStrTail]
  | ret s =>
    have hs : s ≠ "" := by simpa [callTextNonempty, bne_iff_ne] using h3
    simp only [safeStringifyStrTail]
    by_cases ho : (s != "[object Object]") = true
    · rw [if_pos ho]; exact hs
    · rw [if_neg ho]
      cases json with
      | throws => simp
      | ret j => simpa [callTextNonempty, bne_iff_ne] using h4

theorem safeStringifyObjTail_ne (truthy : Bool) (details : JsAttempt JsProp) (toStr json : JsCall)
    (h2 : propTextNonempty details = true)
    (h3 : callTextNonempty toStr = true) (h4 : callTextNonempty json = true) :
    safeStringifyObjTail truthy details toStr json ≠ "" := by
  cases truthy with
  | false => simpa [safeStringifyObjTail] using safeStringifyStrTail_ne toStr json h3 h4
  | true =>
    simp only [safeStringifyObjTail, if_pos]
    cases details with
    | throws => simp
    | undef => exact safeStringifyStrTail_ne toStr json h3 h4
    | val p =>
      cases p with
      | pstr d => simpa [propTextNonempty, bne_iff_ne] using h2
      | pother t r => exact safeStringifyStrTail_ne toStr json h3 h4

theorem extractToStrTail_ne (toStr : JsCall) (h3 : callTextNonempty toStr = true) :
    extractToStrTail toStr ≠ "" := by
  cases toStr with
  | throws => simp [extractToStrTail]
  | ret s =>
    have hs : s ≠ "" := by simpa [callTextNonempty, bne_iff_ne] using h3
    simp only [extractToStrTail]
    by_cases ho : (s != "[object Object]") = true
    · rw [if_pos ho]; exact hs
    · rw [if_neg ho]; simp

theorem jsPropStr_ne (p : JsProp) (h : propTextNonempty (.val p) = true) : jsPropStr p ≠ "" := by
  cases p with
  | pstr s => simpa [propTextNonempty, jsPropStr, bne_iff_ne] using h
  | pother t r => simpa [propTextNonempty, jsPropStr, bne_iff_ne] using h

theorem extractDetailsTail_ne (details : JsAttempt JsProp) (toStr : JsCall)
    (h2 : propTextNonempty details = true) (h3 : callTextNonempty toStr = true) :
    extractDetailsTail details toStr ≠ "" := by
  cases details with
  | throws => simp [extractDetailsTail]
  | undef => simpa [extractDetailsTail] using extractToStrTail_ne toStr h3
  | val p =>
    simp only [extractDetailsTail]
    by_cases hp : jsPropTruthy p = true
    · rw [if_pos hp]; exact jsPropStr_ne p h2
    · rw [if_neg hp]; exact extractToStrTail_ne toStr h3

theorem missingMediaMsg_ne (text : Option String) : missingMediaMsg text ≠ "" :=
  append_ne_left _ _ (append_ne_left _ _ (by decide))

theorem missingMediaMsg_infix (text : Option String) :
    ("model did not return an image").data <:+: (missingMediaMsg text).data := by
  have h1 : ("model did not return an image").data <:+:
      ("AI model did not return an image for background removal. Diagnostic text from AI: \"").data := by
    rw [← listInfixB_iff]
    decide
  exact infix_ext_right _ (infix_ext_right _ h1)

theorem flowCatch_missingMedia (text : Option String) :
    ∃ msg, flowCatch (.err (missingMediaMsg text) none) = .thrownMsg msg ∧
      strContainsB msg "model did not return an image" = true := by
  have hM := missingMediaMsg_infix text
  have hMne := missingMediaMsg_ne text
  have hstr : safeStringifyError (.err (missingMediaMsg text) none) = missingMediaMsg text := rfl
  by_cases hkw : isApiKeyError (missingMediaMsg text) = true
  · refine ⟨apiKeyErrorText (missingMediaMsg text), ?_, ?_⟩
    · simp [flowCatch, hstr, hkw]
    · exact strContainsB_of_infix (infix_ext_right _ (infix_ext_left _ hM))
  · rw [Bool.not_eq_true] at hkw
    by_cases hsf : containsCI (missingMediaMsg text) "candidate was blocked due to safety" = true
    · have hdiag : safetyDiagnostic (.err (missingMediaMsg text) none) =
          .ok (missingMediaMsg text) := by
        simp [safetyDiagnostic, jsMessageRead, bne_iff_ne.mpr hMne]
      refine ⟨safetyBlockedText (missingMediaMsg text), ?_, ?_⟩
      · simp [flowCatch, hstr, hkw, hsf, hdiag]
      · exact strContainsB_of_infix (infix_ext_right _ (infix_ext_left _ hM))
    · rw [Bool.not_eq_true] at hsf
      refine ⟨aiFlowErrorText (missingMediaMsg text), ?_, ?_⟩
      · simp [flowCatch, hstr, hkw, hsf]
      · exact strContainsB_of_infix (infix_ext_left _ hM)

/-- C1: for every completed submission (URL or upload path), the result of
`processImageUrlAction` / `processImageUploadAction` has exactly one of
processedUrl and error present-and-non-null — on the validation-rejection,
read-failure, external-success, empty-external-result and external-failure
paths alike (`isSome` of one field always equals `!isSome` of the other). -/
theorem processing_result_exclusive :
    ∀ (prev : ActionResultState) (v : FormVal) (uid : String) (urlValid : String → Bool)
      (ext : Except JsValue String) (readFails : Bool),
      ((processImageUrlAction prev v uid urlValid ext).1.processedUrl.isSome
        = !(processImageUrlAction prev v uid urlValid ext).1.error.isSome) ∧
      ((processImageUploadAction prev v uid readFails ext).1.processedUrl.isSome
        = !(processImageUploadAction prev v uid readFails ext).1.error.isSome) := by
  intro prev v uid urlValid ext readFails
  constructor
  · cases v with
    | fstr s =>
      cases hv : urlValid s with
      | true =>
        cases ext with
        | ok uri =>
          cases hu : uri != "" with
          | true => simp [processImageUrlAction, imageUrlSafeParse, hv, hu]
          | false => simp [processImageUrlAction, imageUrlSafeParse, hv, hu]
        | error e => simp [processImageUrlAction, imageUrlSafeParse, hv]
      | false => simp [processImageUrlAction, imageUrlSafeParse, hv]
    | ffile f => simp [processImageUrlAction, imageUrlSafeParse]
    | fnull => simp [processImageUrlAction, imageUrlSafeParse]
  · cases v with
    | ffile f =>
      cases hE : imageFileFormErrors f with
      | nil =>
        cases readFails with
        | true => simp [processImageUploadAction, hE]
        | false =>
          cases ext with
          | ok uri =>
            cases hu : uri != "" with
            | true => simp [processImageUploadAction, hE, hu]
            | false => simp [processImageUploadAction, hE, hu]
          | error e => simp [processImageUploadAction, hE]
      | cons a t => simp [processImageUploadAction, hE]
    | fstr s => simp [processImageUploadAction]
    | fnull => simp [processImageUploadAction]

/-- C2 counterexample: the revision of `processImageUrlAction` cited by the
claim (`src/lib/actions.ts` lines 171–177, and likewise `part_004`) computes
`prevState?.id || crypto.randomUUID()`, so with a previous state carrying id
"previous-id" the returned id is exactly the previous id and is NOT the
freshly generated UUID — refuting "never taken from the previous state". -/
theorem correlation_id_counterexample :
    ((processImageUrlActionR2
        { id := some "previous-id", originalUrl := none, processedUrl := none, error := none }
        (.fstr "https://example.com/cat.jpg") "fresh-uuid" (fun _ => true)
        (.ok "data:image/png;base64,AAAA")).1.id = some "previous-id") ∧
    ((processImageUrlActionR2
        { id := some "previous-id", originalUrl := none, processedUrl := none, error := none }
        (.fstr "https://example.com/cat.jpg") "fresh-uuid" (fun _ => true)
        (.ok "data:image/png;base64,AAAA")).1.id ≠ some "fresh-uuid") := by
  constructor
  · rfl
  · decide

/-- C2 amended: the first-section actions always return the freshly generated
UUID as the id, independent of `prevState`; the cited second-section revision
instead returns `prevState.id` whenever it is present and non-empty ("Use
previous ID if available for retry, else new") and the fresh UUID only
otherwise. -/
theorem correlation_id_amended :
    ∀ (prev : ActionResultState) (v : FormVal) (uid : String) (urlValid : String → Bool)
      (ext : Except JsValue String) (readFails : Bool),
      ((processImageUrlAction prev v uid urlValid ext).1.id = some uid) ∧
      ((processImageUploadAction prev v uid readFails ext).1.id = some uid) ∧
      ((processImageUrlActionR2 prev v uid urlValid ext).1.id = some (prevIdOr prev uid)) ∧
      ((processImageUploadActionR2 prev v uid readFails ext).1.id = some (prevIdOr prev uid)) := by
  intro prev v uid urlValid ext readFails
  refine ⟨?_, ?_, ?_, ?_⟩
  · cases v with
    | fstr s =>
      cases hv : urlValid s with
      | true =>
        cases ext with
        | ok uri => cases hu : uri != "" <;> simp [processImageUrlAction, imageUrlSafeParse, hv, hu]
        | error e => simp [processImageUrlAction, imageUrlSafeParse, hv]
      | false => simp [processImageUrlAction, imageUrlSafeParse, hv]
    | ffile f => simp [processImageUrlAction, imageUrlSafeParse]
    | fnull => simp [processImageUrlAction, imageUrlSafeParse]
  · cases v with
    | ffile f =>
      cases hE : imageFileFormErrors f with
      | nil =>
        cases readFails with
        | true => simp [processImageUploadAction, hE]
        | false =>
          cases ext with
          | ok uri => cases hu : uri != "" <;> simp [processImageUploadAction, hE, hu]
          | error e => simp [processImageUploadAction, hE]
      | cons a t => simp [processImageUploadAction, hE]
    | fstr s => simp [processImageUploadAction]
    | fnull => simp [processImageUploadAction]
  · cases v with
    | fstr s =>
      cases hv : urlValid s with
      | true =>
        cases ext with
        | ok uri => cases hu : uri != "" <;> simp [processImageUrlActionR2, imageUrlSafeParse, hv, hu]
        | error e => simp [processImageUrlActionR2, imageUrlSafeParse, hv]
      | false => simp [processImageUrlActionR2, imageUrlSafeParse, hv]
    | ffile f => simp [processImageUrlActionR2, imageUrlSafeParse]
    | fnull => simp [processImageUrlActionR2, imageUrlSafeParse]
  · cases v with
    | ffile f =>
      cases hE : imageFileFormErrors f with
      | nil =>
        cases readFails with
        | true => simp [processImageUploadActionR2, hE]
        | false =>
          cases ext with
          | ok uri => cases hu : uri != "" <;> simp [processImageUploadActionR2, hE, hu]
          | error e => simp [processImageUploadActionR2, hE]
      | cons a t => simp [processImageUploadActionR2, hE]
    | fstr s => simp [processImageUploadActionR2]
    | fnull => simp [processImageUploadActionR2]

/-- C5 counterexample: the claim also cites the `part_003` revision of
`processImageUrlAction`, whose validation-reject path returns only
`{ error }` — so on a rejected input that revision's `originalUrl` is absent
and does NOT echo the raw submitted input, refuting the claim's echo
conjunct for cited code. -/
theorem invalid_url_echo_counterexample :
    ((processImageUrlActionP3
        { id := none, originalUrl := none, processedUrl := none, error := none }
        (.fstr "not a url") "uid-0" (fun _ => false) (.ok "ignored")).1.originalUrl = none) ∧
    ((processImageUrlActionP3
        { id := none, originalUrl := none, processedUrl := none, error := none }
        (.fstr "not a url") "uid-0" (fun _ => false) (.ok "ignored")).1.originalUrl ≠
      some "not a url") := by
  constructor
  · rfl
  · decide

/-- C5 amended: for every input string the URL validator rejects, both cited
revisions return the joined validation reason as `error`, leave
`processedUrl` absent, and never invoke the external AI call (the call flag
is `false`, and the result is independent of the external outcome `ext`);
the first-section `actions.ts` revision additionally echoes the raw
submitted input back as `originalUrl` (with the fresh id), while the
`part_003` revision returns only the error field — its id, `originalUrl`
and `processedUrl` are all absent. -/
theorem invalid_url_rejected :
    ∀ (prev : ActionResultState) (s : String) (uid : String) (urlValid : String → Bool)
      (ext : Except JsValue String),
      urlValid s = false →
      (processImageUrlAction prev (.fstr s) uid urlValid ext =
        ({ id := some uid, originalUrl := some s,
           error := some "Invalid URL format. Please enter a valid image URL.",
           processedUrl := none }, false)) ∧
      (processImageUrlActionP3 prev (.fstr s) uid urlValid ext =
        ({ id := none, originalUrl := none,
           error := some "Invalid URL format. Please enter a valid image URL.",
           processedUrl := none }, false)) := by
  intro prev s uid urlValid ext hv
  have hsing : ∀ x : String, String.intercalate ", " [x] = x := fun x => rfl
  constructor
  · simp [processImageUrlAction, imageUrlSafeParse, hv, formValStr, hsing]
  · simp [processImageUrlActionP3, imageUrlSafeParse, hv, hsing]

theorem invalid_url_rejected_witness :
    (processImageUrlAction { id := none, originalUrl := none, processedUrl := none, error := none }
      (.fstr "not a url") "uid-1" (fun _ => false) (.ok "ignored") =
      ({ id := some "uid-1", originalUrl := some "not a url",
         error := some "Invalid URL format. Please enter a valid image URL.",
         processedUrl := none }, false)) ∧
    (processImageUrlActionP3 { id := none, originalUrl := none, processedUrl := none, error := none }
      (.fstr "not a url") "uid-1" (fun _ => false) (.ok "ignored") =
      ({ id := none, originalUrl := none,
         error := some "Invalid URL format. Please enter a valid image URL.",
         processedUrl := none }, false)) :=
  invalid_url_rejected _ "not a url" "uid-1" (fun _ => false) (.ok "ignored") rfl

/-- C9: with none of GEMINI_API_KEY / GOOGLE_API_KEY / GOOGLE_GENAI_API_KEY
in the environment, module initialisation still constructs the AI client
(with the plugin left to its own env lookup) and never throws — the module
body is embedded as a total straight-line function — and it emits the
warning exactly when NODE_ENV is "development", so outside development the
absence produces no diagnostic at all. -/
theorem missing_credential_warns_only :
    ∀ env : EnvModel,
      env.GEMINI_API_KEY = none → env.GOOGLE_API_KEY = none → env.GOOGLE_GENAI_API_KEY = none →
      initGenkitModule env =
        { warned := env.NODE_ENV == some "development",
          ai := { plugin := .envLookup, model := "googleai/gemini-2.0-flash" } } := by
  intro env h1 h2 h3
  simp [initGenkitModule, jsOrStr, jsFalsyStr, h1, h2, h3]

theorem missing_credential_warns_only_witness :
    (initGenkitModule
        { GEMINI_API_KEY := none, GOOGLE_API_KEY := none,
          GOOGLE_GENAI_API_KEY := none, NODE_ENV := some "development" } =
      { warned := true,
        ai := { plugin := .envLookup, model := "googleai/gemini-2.0-flash" } }) ∧
    (initGenkitModule
        { GEMINI_API_KEY := none, GOOGLE_API_KEY := none,
          GOOGLE_GENAI_API_KEY := none, NODE_ENV := some "production" } =
      { warned := false,
        ai := { plugin := .envLookup, model := "googleai/gemini-2.0-flash" } }) := by
  constructor
  · simpa using missing_credential_warns_only
      { GEMINI_API_KEY := none, GOOGLE_API_KEY := none,
        GOOGLE_GENAI_API_KEY := none, NODE_ENV := some "development" } rfl rfl rfl
  · simpa using missing_credential_warns_only
      { GEMINI_API_KEY := none, GOOGLE_API_KEY := none,
        GOOGLE_GENAI_API_KEY := none, NODE_ENV := some "production" } rfl rfl rfl

/-- C10: when the external call returns a non-empty media URL, the flow
succeeds and returns that URL verbatim even when it does not start with
"data:image/png;base64," — the PNG check only drives the logged warning
(tracked as `warnedNonPng`) and enforces no output-format constraint on the
returned Image Reference. -/
theorem non_png_url_passthrough :
    ∀ (u : String) (text : Option String), u ≠ "" →
      removeBackgroundFromImageUrlFlow (.genOk (some { url := u }) text) =
        { result := .ok u, warnedNonPng := !startsWithB u pngDataUriPrefix } := by
  intro u text hu
  simp only [removeBackgroundFromImageUrlFlow]
  rw [if_pos]
  exact bne_iff_ne.mpr hu

theorem non_png_url_passthrough_witness :
    removeBackgroundFromImageUrlFlow
        (.genOk (some { url := "https://cdn.example.com/out.jpg" }) (some "done")) =
      { result := .ok "https://cdn.example.com/out.jpg", warnedNonPng := true } := by
  rw [non_png_url_passthrough "https://cdn.example.com/out.jpg" (some "done") (by decide)]
  rfl

/-- C6: the file validator accepts exactly when size > 0, size ≤ 5 MiB
(5 * 1024 * 1024 bytes, regardless of declared MIME type) and the declared
content type is one of image/jpeg, image/jpg, image/png, image/webp; each
failing rule contributes its own reason (not short-circuited), and the
upload action reports all accumulated reasons joined into one message
without calling the external service. -/
theorem file_validator_rules :
    ∀ f : FileModel,
      (imageFileFormErrors f = [] ↔
        (0 < f.size ∧ f.size ≤ 5 * 1024 * 1024 ∧ f.type ∈ ACCEPTED_IMAGE_TYPES)) ∧
      (f.size = 0 → "File is empty." ∈ imageFileFormErrors f) ∧
      (5 * 1024 * 1024 < f.size → "Max file size is 5MB." ∈ imageFileFormErrors f) ∧
      (f.type ∉ ACCEPTED_IMAGE_TYPES →
        "Only .jpg, .jpeg, .png and .webp formats are supported." ∈ imageFileFormErrors f) ∧
      (∀ (prev : ActionResultState) (uid : String) (readFails : Bool) (ext : Except JsValue String),
        imageFileFormErrors f ≠ [] →
        processImageUploadAction prev (.ffile f) uid readFails ext =
          ({ id := some uid, originalUrl := some f.name,
             error := some (String.intercalate ", " (imageFileFormErrors f)),
             processedUrl := none }, false)) := by
  intro f
  refine ⟨?_, ?_, ?_, ?_, ?_⟩
  · by_cases h1 : 0 < f.size <;> by_cases h2 : f.size ≤ MAX_FILE_SIZE <;>
      by_cases h3 : ACCEPTED_IMAGE_TYPES.contains f.type <;>
      simp_all [imageFileFormErrors, MAX_FILE_SIZE, List.elem_iff]
  · intro h0
    simp [imageFileFormErrors, h0]
  · intro h
    have h2 : ¬ f.size ≤ MAX_FILE_SIZE := by simp [MAX_FILE_SIZE]; omega
    simp [imageFileFormErrors, h2]
  · intro h
    have h3 : ACCEPTED_IMAGE_TYPES.contains f.type = false := by
      simp [List.elem_iff] at h ⊢
      exact h
    simp [imageFileFormErrors, h3]
    exact h
  · intro prev uid readFails ext h
    cases hE : imageFileFormErrors f with
    | nil => exact absurd hE h
    | cons a t => simp [processImageUploadAction, hE]

theorem file_validator_rules_witness :
    ((5 * 1024 * 1024 < (6 * 1024 * 1024 : Nat)) ∧
      "Max file size is 5MB." ∈
        imageFileFormErrors
          { name := "big.bin", size := 6 * 1024 * 1024, type := "text/plain", content := [] }) ∧
    ("text/plain" ∉ ACCEPTED_IMAGE_TYPES ∧
      "Only .jpg, .jpeg, .png and .webp formats are supported." ∈
        imageFileFormErrors
          { name := "big.bin", size := 6 * 1024 * 1024, type := "text/plain", content := [] }) ∧
    (imageFileFormErrors
        { name := "big.bin", size := 6 * 1024 * 1024, type := "text/plain", content := [] } ≠ [] ∧
      processImageUploadAction { id := none, originalUrl := none, processedUrl := none, error := none }
          (.ffile { name := "big.bin", size := 6 * 1024 * 1024, type := "text/plain", content := [] })
          "uid-2" false (.ok "ignored") =
        ({ id := some "uid-2", originalUrl := some "big.bin",
           error := some "Max file size is 5MB., Only .jpg, .jpeg, .png and .webp formats are supported.",
           processedUrl := none }, false)) := by
  refine ⟨⟨by decide, ?_⟩, ⟨by decide, ?_⟩, ⟨by decide, ?_⟩⟩
  · exact (file_validator_rules _).2.2.1 (by decide)
  · exact (file_validator_rules _).2.2.2.1 (by decide)
  · have := (file_validator_rules
      { name := "big.bin", size := 6 * 1024 * 1024, type := "text/plain", content := [] }).2.2.2.2
      { id := none, originalUrl := none, processedUrl := none, error := none } "uid-2" false
      (.ok "ignored") (by decide)
    simpa using this

/-- C3 counterexample: a thrown empty string is passed through verbatim by
both `safeStringifyError` and `extractErrorMessage`, so the classifiers can
return the EMPTY string — refuting "always returns a non-empty string". -/
theorem classifier_empty_string_counterexample :
    safeStringifyError (.str "") = "" ∧ extractErrorMessage (.str "") = "" :=
  ⟨rfl, rfl⟩

/-- C3 amended: for any thrown failure value — Error instance, plain string,
or arbitrary object, including objects whose message, toString or
JSON.stringify themselves throw — both classifiers are total (they are
embedded as plain functions into `String`, every throwing sub-operation
being handled by an explicit catch arm) and return a non-empty string
whenever every text the thrown value itself supplies (message, details,
string conversion, JSON text) is non-empty; an empty extracted text (e.g. a
thrown empty string) is passed through empty. -/
theorem classifier_nonempty_amended :
    ∀ e : JsValue, noEmptyText e = true →
      safeStringifyError e ≠ "" ∧ extractErrorMessage e ≠ "" := by
  intro e he
  cases e with
  | err m c =>
    have hm : m ≠ "" := by simpa [noEmptyText, bne_iff_ne] using he
    constructor
    · cases c with
      | none => simpa [safeStringifyError] using hm
      | some cv =>
        simp only [safeStringifyError]
        by_cases ht : jsTruthy cv = true
        · rw [if_pos ht]; exact append_ne_left _ _ (append_ne_left _ _ hm)
        · rw [if_neg ht]; exact hm
    · simpa [extractErrorMessage] using hm
  | str s =>
    have hs : s ≠ "" := by simpa [noEmptyText, bne_iff_ne] using he
    exact ⟨hs, hs⟩
  | other truthy message details cause toStr json =>
    simp only [noEmptyText, Bool.and_eq_true] at he
    obtain ⟨⟨⟨h1, h2⟩, h3⟩, h4⟩ := he
    constructor
    · cases truthy with
      | false =>
        simpa [safeStringifyError] using safeStringifyObjTail_ne false details toStr json h2 h3 h4
      | true =>
        simp only [safeStringifyError, if_pos]
        cases message with
        | throws => simp
        | undef => exact safeStringifyObjTail_ne true details toStr json h2 h3 h4
        | val p =>
          cases p with
          | pother t r => exact safeStringifyObjTail_ne true details toStr json h2 h3 h4
          | pstr m =>
            have hm : m ≠ "" := by simpa [propTextNonempty, bne_iff_ne] using h1
            cases cause with
            | throws => simp
            | undef => exact hm
            | val cv =>
              by_cases ht : jsTruthy cv = true
              · simp only [if_pos ht]; exact append_ne_left _ _ (append_ne_left _ _ hm)
              · simp only [if_neg ht]; exact hm
    · cases truthy with
      | false => simp [extractErrorMessage]
      | true =>
        cases message with
        | throws => simp [extractErrorMessage]
        | undef => simpa [extractErrorMessage] using extractDetailsTail_ne details toStr h2 h3
        | val p =>
          by_cases hp : jsPropTruthy p = true
          · simpa [extractErrorMessage, hp] using jsPropStr_ne p h1
          · simpa [extractErrorMessage, hp] using extractDetailsTail_ne details toStr h2 h3

theorem classifier_nonempty_amended_witness :
    noEmptyText (.other true .throws .throws .throws .throws .throws) = true ∧
    safeStringifyError (.other true .throws .throws .throws .throws .throws) ≠ "" ∧
    extractErrorMessage (.other true .throws .throws .throws .throws .throws) ≠ "" :=
  ⟨rfl,
   (classifier_nonempty_amended (.other true .throws .throws .throws .throws .throws) rfl).1,
   (classifier_nonempty_amended (.other true .throws .throws .throws .throws .throws) rfl).2⟩

/-- C4 counterexample: a message containing "location is not supported" is
NOT mapped to a regional-restriction category: the flow classifier has no
location branch at all and passes "user location is not supported" through
as the generic "AI Flow Error: " category, and `getClientErrorMessage`
applies its location branch only to Error values, so the same text thrown as
a plain string is also classified generic; its credential check is moreover
case-sensitive, so the lowercase "api key invalid" comes out generic rather
than credential. -/
theorem classifier_categories_counterexample :
    flowCatch (.err "user location is not supported" none) =
      .thrownMsg "AI Flow Error: user location is not supported" ∧
    getClientErrorMessage (.str "user location is not supported") =
      "Processing Error: user location is not supported" ∧
    getClientErrorMessage (.err "api key invalid" none) =
      "Processing Error: api key invalid" := by
  refine ⟨?_, ?_, ?_⟩ <;> rfl

/-- C4 amended: the flow classifier maps messages containing (case-
insensitively) one of its credential keywords ("API key", "IAM",
"forbidden", …) to the credential category, otherwise messages containing
"candidate was blocked due to safety" to the safety category (with the
re-read diagnostic), and everything else — including "location is not
supported" texts — to the generic "AI Flow Error: " passthrough; only
`getClientErrorMessage` has a regional branch, and it classifies only Error
values, in order: case-SENSITIVE credential terms ("API key",
"PERMISSION_DENIED", "Failed precondition", "IAM"), then lowercased
"candidate was blocked due to safety", then "user location is not
supported", then "model text not found"/"no media", then a truncated
generic passthrough; thrown strings always get the generic
"Processing Error: " form. -/
theorem classifier_categories_amended :
    ∀ (e : JsValue) (d : String) (m : String) (c : Option JsValue) (s : String),
      (isApiKeyError (safeStringifyError e) = true →
        flowCatch e = .thrownMsg (apiKeyErrorText (safeStringifyError e))) ∧
      (isApiKeyError (safeStringifyError e) = false →
        containsCI (safeStringifyError e) "candidate was blocked due to safety" = true →
        safetyDiagnostic e = .ok d →
        flowCatch e = .thrownMsg (safetyBlockedText d)) ∧
      (isApiKeyError (safeStringifyError e) = false →
        containsCI (safeStringifyError e) "candidate was blocked due to safety" = false →
        flowCatch e = .thrownMsg (aiFlowErrorText (safeStringifyError e))) ∧
      (clientCredCheck m = true → getClientErrorMessage (.err m c) = clientApiKeyText) ∧
      (clientCredCheck m = false →
        strContainsB (lowerStr m) "candidate was blocked due to safety" = true →
        getClientErrorMessage (.err m c) = clientSafetyText) ∧
      (clientCredCheck m = false →
        strContainsB (lowerStr m) "candidate was blocked due to safety" = false →
        strContainsB (lowerStr m) "user location is not supported" = true →
        getClientErrorMessage (.err m c) = clientLocationText) ∧
      (clientCredCheck m = false →
        strContainsB (lowerStr m) "candidate was blocked due to safety" = false →
        strContainsB (lowerStr m) "user location is not supported" = false →
        (strContainsB (lowerStr m) "model text not found" || strContainsB (lowerStr m) "no media") = true →
        getClientErrorMessage (.err m c) = clientNoMediaText) ∧
      (clientCredCheck m = false →
        strContainsB (lowerStr m) "candidate was blocked due to safety" = false →
        strContainsB (lowerStr m) "user location is not supported" = false →
        (strContainsB (lowerStr m) "model text not found" || strContainsB (lowerStr m) "no media") = false →
        getClientErrorMessage (.err m c) = clientGenericText m) ∧
      (getClientErrorMessage (.str s) =
        if s.data.length > 200 then "Processing Error: " ++ String.mk (s.data.take 200) ++ "..."
        else "Processing Error: " ++ s) := by
  intro e d m c s
  refine ⟨?_, ?_, ?_, ?_, ?_, ?_, ?_, ?_, ?_⟩
  · intro h1
    simp [flowCatch, h1]
  · intro h1 h2 h3
    simp [flowCatch, h1, h2, h3]
  · intro h1 h2
    simp [flowCatch, h1, h2]
  · intro h1
    simp [getClientErrorMessage, h1]
  · intro h1 h2
    simp [getClientErrorMessage, h1, h2]
  · intro h1 h2 h3
    simp [getClientErrorMessage, h1, h2, h3]
  · intro h1 h2 h3 h4
    simp [getClientErrorMessage, h1, h2, h3, h4]
  · intro h1 h2 h3 h4
    simp only [Bool.or_eq_false_iff] at h4
    simp [getClientErrorMessage, h1, h2, h3, h4.1, h4.2]
  · rfl

theorem classifier_categories_amended_witness :
    (flowCatch (.err "Request had invalid API key" none) =
      .thrownMsg (apiKeyErrorText "Request had invalid API key")) ∧
    (flowCatch (.err "The candidate was blocked due to SAFETY" none) =
      .thrownMsg (safetyBlockedText "The candidate was blocked due to SAFETY")) ∧
    (flowCatch (.err "network timeout" none) =
      .thrownMsg (aiFlowErrorText "network timeout")) ∧
    (getClientErrorMessage (.err "API key missing" none) = clientApiKeyText) ∧
    (getClientErrorMessage (.err "Candidate was blocked due to safety" none) = clientSafetyText) ∧
    (getClientErrorMessage (.err "User location is not supported" none) = clientLocationText) ∧
    (getClientErrorMessage (.err "no media returned" none) = clientNoMediaText) ∧
    (getClientErrorMessage (.err "mystery failure" none) = clientGenericText "mystery failure") ∧
    (getClientErrorMessage (.str "oops") = "Processing Error: " ++ "oops") := by
  refine ⟨?_, ?_, ?_, ?_, ?_, ?_, ?_, ?_, ?_⟩
  · exact (classifier_categories_amended (.err "Request had invalid API key" none)
      "" "" none "").1 (by decide)
  · exact (classifier_categories_amended (.err "The candidate was blocked due to SAFETY" none)
      "The candidate was blocked due to SAFETY" "" none "").2.1 (by decide) (by decide) rfl
  · exact (classifier_categories_amended (.err "network timeout" none) "" "" none "").2.2.1
      (by decide) (by decide)
  · exact (classifier_categories_amended (.str "") "" "API key missing" none "").2.2.2.1
      (by decide)
  · exact (classifier_categories_amended (.str "") "" "Candidate was blocked due to safety" none
      "").2.2.2.2.1 (by decide) (by decide)
  · exact (classifier_categories_amended (.str "") "" "User location is not supported" none
      "").2.2.2.2.2.1 (by decide) (by decide) (by decide)
  · exact (classifier_categories_amended (.str "") "" "no media returned" none
      "").2.2.2.2.2.2.1 (by decide) (by decide) (by decide) (by decide)
  · exact (classifier_categories_amended (.str "") "" "mystery failure" none
      "").2.2.2.2.2.2.2.1 (by decide) (by decide) (by decide) (by decide)
  · have := (classifier_categories_amended (.str "") "" "" none "oops").2.2.2.2.2.2.2.2
    simpa using this

/-- C7: when the external call completes without throwing but its media URL
is empty or absent, the flow throws an error whose message contains "model
did not return an image" (the internally thrown error, re-classified by the
flow's own catch block, keeps that phrase on every branch); and both actions
map an empty `backgroundRemovedDataUri` to an error Processing Result with
`processedUrl` absent. -/
theorem empty_result_is_failure :
    ∀ (media : Option MediaPart) (text : Option String) (prev : ActionResultState)
      (s : String) (uid : String) (urlValid : String → Bool) (f : FileModel),
      ((media = none ∨ media = some { url := "" }) →
        ∃ msg, (removeBackgroundFromImageUrlFlow (.genOk media text)).result =
            .error (.thrownMsg msg) ∧
          strContainsB msg "model did not return an image" = true) ∧
      (urlValid s = true →
        processImageUrlAction prev (.fstr s) uid urlValid (.ok "") =
          ({ id := some uid, originalUrl := some s,
             error := some "AI processing failed to return an image.", processedUrl := none }, true)) ∧
      (imageFileFormErrors f = [] →
        processImageUploadAction prev (.ffile f) uid false (.ok "") =
          ({ id := some uid, originalUrl := some (mkOriginalDataUri f),
             error := some "AI processing failed to return an image from the uploaded file.",
             processedUrl := none }, true)) := by
  intro media text prev s uid urlValid f
  refine ⟨?_, ?_, ?_⟩
  · intro hmedia
    have hrun : (removeBackgroundFromImageUrlFlow (.genOk media text)).result =
        .error (flowCatch (.err (missingMediaMsg text) none)) := by
      rcases hmedia with h | h <;> subst h <;> simp [removeBackgroundFromImageUrlFlow]
    obtain ⟨msg, hmsg, hcontains⟩ := flowCatch_missingMedia text
    exact ⟨msg, by rw [hrun, hmsg], hcontains⟩
  · intro hv
    simp [processImageUrlAction, imageUrlSafeParse, hv]
  · intro hE
    simp [processImageUploadAction, hE]

theorem empty_result_is_failure_witness :
    (∃ msg, (removeBackgroundFromImageUrlFlow (.genOk none (some "no image"))).result =
        .error (.thrownMsg msg) ∧
      strContainsB msg "model did not return an image" = true) ∧
    processImageUrlAction { id := none, originalUrl := none, processedUrl := none, error := none }
        (.fstr "https://example.com/cat.jpg") "uid-3" (fun _ => true) (.ok "") =
      ({ id := some "uid-3", originalUrl := some "https://example.com/cat.jpg",
         error := some "AI processing failed to return an image.", processedUrl := none }, true) := by
  constructor
  · exact (empty_result_is_failure none (some "no image")
      { id := none, originalUrl := none, processedUrl := none, error := none }
      "" "" (fun _ => true) { name := "", size := 0, type := "", content := [] }).1 (Or.inl rfl)
  · exact (empty_result_is_failure none none
      { id := none, originalUrl := none, processedUrl := none, error := none }
      "https://example.com/cat.jpg" "uid-3" (fun _ => true)
      { name := "", size := 0, type := "", content := [] }).2.1 rfl

/-- C8: encoding a valid file payload into the
`data:<declared-mime-type>;base64,<payload>` Image Reference and
base64-decoding the payload part yields exactly the original bytes
(round-trip identity of the base64 encoding step). -/
theorem data_uri_base64_roundtrip :
    ∀ f : FileModel, (∀ b ∈ f.content, b < 256) →
      mkOriginalDataUri f = "data:" ++ f.type ++ ";base64," ++ String.mk (base64Encode f.content) ∧
      base64Decode (base64Encode f.content) = some f.content := by
  intro f h
  exact ⟨rfl, base64_decode_encode f.content h⟩

theorem data_uri_base64_roundtrip_witness :
    mkOriginalDataUri { name := "cat.png", size := 3, type := "image/png", content := [77, 97, 110] } =
      "data:image/png;base64,TWFu" ∧
    base64Decode (base64Encode [77, 97, 110]) = some [77, 97, 110] := by
  have h := data_uri_base64_roundtrip
    { name := "cat.png", size := 3, type := "image/png", content := [77, 97, 110] } (by decide)
  exact ⟨by rw [h.1]; rfl, h.2⟩

end RSconvert
